import Mathlib

/-!
Formal model of the PRISM surveillance pipeline core
(risk scoring, climate adjustment, alerting, forecasting, evaluation),
shallowly embedded from `backend/services/risk.py`, `backend/utils/climate.py`,
`backend/services/alerts.py`, `backend/services/forecasting.py`,
`backend/services/arima_forecasting.py` and `backend/services/evaluation.py`.

Modelling conventions:
* Python floats are modelled by `ℚ`; case counts (non-negative integers in the
  data model, read with `int(doc.get(..., 0) or 0)`) by `ℤ`.
* ISO date strings are modelled by `ℕ` day ordinals: lexicographic order on
  ISO dates coincides with chronological order, and
  `date + timedelta(days = k)` becomes `d + k`.
* MongoDB collections are modelled as `List` of document records;
  `find(...).sort(...).limit(n)` becomes filter, stable insertion sort, take;
  `update_one(filter, set, upsert=True)` replaces the first matching
  document or appends.  Wall-clock fields (`created_at`, `generated_at`,
  `updated_at`, `evaluated_at`) are not modelled: no claim observes them.
* `f"{x:.2f}"` formatting and `round(x, 2)` are modelled by rounding the
  rational to two decimal places; two formatted strings are equal exactly
  when the rounded values are equal.
-/

namespace PRISM

/-- `clip01` from `risk.py`: clip a value to the `[0, 1]` range
(`max(0.0, min(1.0, x))`). -/
def clip01 (x : ℚ) : ℚ := max 0 (min 1 x)

/-- The `1e-10` guard used by `safe_divide` (`risk.py`) and `safe_mape`
(`evaluation.py`). -/
def tinyGuard : ℚ := 1 / 10000000000

/-- `safe_divide` from `risk.py`: return `dflt` if the denominator is zero or
smaller than `1e-10` in absolute value, else the quotient. -/
def safe_divide (n d dflt : ℚ) : ℚ :=
  if d = 0 ∨ |d| < tinyGuard then dflt else n / d

/-- Rounding a rational to two decimal places: the model of Python's
`round(x, 2)` and of the value printed by `f"{x:.2f}"`. -/
def round2 (q : ℚ) : ℚ := (round (q * 100) : ℤ) / 100

/-- Arithmetic mean of a list of rationals (`statistics.mean`); the sources
only apply it to non-empty lists. -/
def listMean (l : List ℚ) : ℚ := l.sum / l.length

/-- Stable insertion: place `x` before the first element `y` with `le x y`.
Used to model MongoDB/`sorted` sorts; it is stable for a total preorder. -/
def insertB {α : Type} (le : α → α → Bool) (x : α) : List α → List α
  | [] => [x]
  | y :: t => if le x y then x :: y :: t else y :: insertB le x t

/-- Stable insertion sort by the boolean comparison `le`. -/
def sortB {α : Type} (le : α → α → Bool) : List α → List α
  | [] => []
  | x :: t => insertB le x (sortB le t)

/-- Outcome of `datetime.fromisoformat(date_str)` as far as the climate code
observes it: a valid ISO date exposes its calendar month, a malformed string
raises (the `except` path). -/
inductive DateStr where
  | invalid
  | valid (month : ℕ)
deriving DecidableEq

/-- The `MONSOON_RISK_MULTIPLIERS` month table from `climate.py`. -/
def monsoonRiskMultipliers : List (ℕ × ℚ) :=
  [(1, 1/2), (2, 1/2), (3, 7/10), (4, 4/5), (5, 1), (6, 3/2),
   (7, 9/5), (8, 17/10), (9, 3/2), (10, 6/5), (11, 4/5), (12, 3/5)]

/-- `MONSOON_RISK_MULTIPLIERS.get(month, 1.0)`. -/
def monsoonMultiplier (month : ℕ) : ℚ :=
  (monsoonRiskMultipliers.lookup month).getD 1

/-- The `month_names` dictionary in `get_climate_risk_multiplier`;
`none` models a `KeyError` (unreachable for parsed dates). -/
def monthName (m : ℕ) : Option String :=
  [(1, "Jan"), (2, "Feb"), (3, "Mar"), (4, "Apr"), (5, "May"), (6, "Jun"),
   (7, "Jul"), (8, "Aug"), (9, "Sep"), (10, "Oct"), (11, "Nov"),
   (12, "Dec")].lookup m

/-- `get_climate_risk_multiplier(date_str, region_id)` from `climate.py`.
The `region_id` argument is accepted and ignored, exactly as in the source.
A malformed date (or the unreachable `month_names` `KeyError`) falls back to
`(1.0, "Error parsing date: ...")` via the function-level `except`.  The
`risk_desc` local of the source is computed but never used in the returned
explanation, so it is not modelled. -/
def get_climate_risk_multiplier (dateStr : DateStr) (region_id : Option String) :
    ℚ × String :=
  match dateStr with
  | .invalid => (1, "Error parsing date: invalid isoformat string")
  | .valid month =>
    let multiplier := monsoonMultiplier month
    let season :=
      if month = 6 ∨ month = 7 ∨ month = 8 ∨ month = 9 then "Monsoon"
      else if month = 10 ∨ month = 11 then "Post-monsoon"
      else if month = 3 ∨ month = 4 ∨ month = 5 then "Pre-monsoon"
      else "Winter"
    let risk_level :=
      if multiplier ≥ 3/2 then "Very high"
      else if multiplier ≥ 6/5 then "High"
      else if multiplier ≥ 4/5 then "Moderate"
      else "Low"
    match monthName month with
    | none => (1, "Error parsing date: KeyError")
    | some mn =>
      (multiplier, season ++ " (" ++ mn ++ ") - " ++ risk_level ++
        " transmission risk")

/-- The dictionary returned by `get_seasonal_context` in `climate.py`. -/
structure SeasonalContext where
  month : ℕ
  climate_multiplier : ℚ
  is_monsoon : Bool
  is_peak_monsoon : Bool
  is_post_monsoon : Bool
  is_pre_monsoon : Bool
  season : String
  error : Option String
deriving DecidableEq

/-- `get_seasonal_context(date_str)` from `climate.py`. -/
def get_seasonal_context (dateStr : DateStr) : SeasonalContext :=
  match dateStr with
  | .invalid =>
    ⟨0, 1, false, false, false, false, "unknown", some "invalid isoformat string"⟩
  | .valid month =>
    let multiplier := monsoonMultiplier month
    let is_monsoon := month == 6 || month == 7 || month == 8 || month == 9
    let is_peak_monsoon := month == 7 || month == 8
    let is_post_monsoon := month == 10 || month == 11
    let is_pre_monsoon := month == 3 || month == 4 || month == 5
    { month := month
      climate_multiplier := multiplier
      is_monsoon := is_monsoon
      is_peak_monsoon := is_peak_monsoon
      is_post_monsoon := is_post_monsoon
      is_pre_monsoon := is_pre_monsoon
      season :=
        if is_monsoon then "monsoon"
        else if is_post_monsoon then "post_monsoon"
        else if is_pre_monsoon then "pre_monsoon"
        else "winter"
      error := none }

/-- `calculate_weather_aware_risk(base_risk, date_str, region_id)` from
`climate.py`: apply the climate multiplier, capped at `1.0`
(`min(1.0, base_risk * climate_multiplier)`), and classify the relative
change as boost / reduction / neutral. -/
def calculate_weather_aware_risk (base_risk : ℚ) (dateStr : DateStr)
    (region_id : Option String) : ℚ × String × SeasonalContext :=
  let mp := get_climate_risk_multiplier dateStr region_id
  let seasonal_context := get_seasonal_context dateStr
  let adjusted_risk := min 1 (base_risk * mp.1)
  let boost_pct := if base_risk > 0 then (adjusted_risk - base_risk) / base_risk * 100 else 0
  let explanation :=
    if boost_pct > 10 then "Climate boost (" ++ mp.2 ++ ")"
    else if boost_pct < -10 then "Climate reduction (" ++ mp.2 ++ ")"
    else "Neutral climate impact (" ++ mp.2 ++ ")"
  (adjusted_risk, explanation, seasonal_context)

/-- The metrics dictionary produced by `compute_region_metrics` in `risk.py`. -/
structure Metrics where
  region_id : String
  window_size : ℕ
  today_confirmed : ℤ
  past_confirmed : ℤ
  growth_rate : ℚ
  death_ratio : ℚ
  volatility_norm : ℚ
deriving DecidableEq

/-- The `climate_info` dictionary built by `compute_risk_score`: one shape per
branch of the `use_climate_boost and target_date` test. -/
inductive ClimateInfo where
  | enabled (base_risk climate_multiplier adjusted_risk : ℚ)
      (explanation season : String) (is_monsoon : Bool)
  | disabled (base_risk : ℚ)
deriving DecidableEq

/-- The `(score, risk_level, drivers, climate_info)` tuple returned by
`compute_risk_score`. -/
structure RiskResult where
  score : ℚ
  risk_level : String
  drivers : List String
  climate_info : ClimateInfo
deriving DecidableEq

/-- One row of the `cases_daily` collection (a `CaseObservation`): missing
`granularity` (legacy yearly data) and missing `disease` are `none`. -/
structure CaseDoc where
  region_id : String
  date : ℕ
  disease : Option String
  granularity : Option String
  confirmed : ℤ
  deaths : ℤ
deriving DecidableEq

/-- Sort comparison for `.sort("date", DESCENDING)` on case documents. -/
def caseDateDesc (a b : CaseDoc) : Bool := decide (b.date ≤ a.date)

/-- The query built by `compute_region_metrics`: region, `date ≤ target`
when a target date is given, and the optional disease filter. -/
def caseQueryMatch (rid : String) (targetDate : Option ℕ)
    (disease : Option String) (doc : CaseDoc) : Bool :=
  doc.region_id == rid &&
    (match targetDate with | some t => decide (doc.date ≤ t) | none => true) &&
    (match disease with | some dz => doc.disease == some dz | none => true)

/-- `_series_std(values)` from `risk.py`: `0.0` for fewer than two values,
else `statistics.stdev`.  The square root inside `stdev` is floating-point
and irrational, so it is abstracted as the parameter `std`; every claim
proved below holds for an arbitrary `std`. -/
def series_std (std : List ℚ → ℚ) (values : List ℚ) : ℚ :=
  if values.length < 2 then 0 else std values

/-- `compute_region_metrics(region_id, target_date, cases_col, disease)` from
`risk.py`: read the up-to-7 most recent observations with `date ≤ target`,
reverse to ascending order and derive growth rate, death ratio and
normalised volatility with `safe_divide` guards.  Returns `none` when no
observation matches.  The list-index expressions `series[-1]` / `series[0]`
of the source act on a list known non-empty; they are modelled by
`getLastD` / `headD` whose defaults are unreachable. -/
def compute_region_metrics (std : List ℚ → ℚ) (region_id : String)
    (target_date : Option ℕ) (cases : List CaseDoc) (disease : Option String) :
    Option Metrics :=
  let docs_desc :=
    (sortB caseDateDesc (cases.filter (caseQueryMatch region_id target_date disease))).take 7
  if docs_desc = [] then none
  else
    let docs := docs_desc.reverse
    let confirmed_series : List ℤ := docs.map (fun d => d.confirmed)
    let deaths_series : List ℤ := docs.map (fun d => d.deaths)
    let today_confirmed := confirmed_series.getLastD 0
    let past_confirmed := confirmed_series.headD 0
    let today_deaths := deaths_series.getLastD 0
    let growth_rate :=
      safe_divide ((today_confirmed : ℚ) - (past_confirmed : ℚ))
        (max (past_confirmed : ℚ) 1) 0
    let death_ratio :=
      safe_divide (today_deaths : ℚ) (max (today_confirmed : ℚ) 1) 0
    let mean_confirmed :=
      if confirmed_series = [] then 0
      else listMean (confirmed_series.map (fun z => (z : ℚ)))
    let volatility_norm :=
      safe_divide (series_std std (confirmed_series.map (fun z => (z : ℚ))))
        (max mean_confirmed 1) 0
    some
      { region_id := region_id
        window_size := docs.length
        today_confirmed := today_confirmed
        past_confirmed := past_confirmed
        growth_rate := growth_rate
        death_ratio := death_ratio
        volatility_norm := volatility_norm }

/-- The `base_score` expression of `compute_risk_score` in `risk.py`:
`0.65*clip01(growth) + 0.25*clip01(volatility*2) + 0.10*clip01(death_ratio*50)`. -/
def baseScore (metrics : Metrics) : ℚ :=
  65/100 * clip01 metrics.growth_rate + 25/100 * clip01 (metrics.volatility_norm * 2)
    + 10/100 * clip01 (metrics.death_ratio * 50)

/-- `compute_risk_score(metrics, target_date, region_id, use_climate_boost)`
from `risk.py`.  `target_date = none` models both `None` and the empty
string (the falsy values of `if use_climate_boost and target_date`). -/
def compute_risk_score (metrics : Metrics) (target_date : Option DateStr)
    (region_id : Option String) (use_climate_boost : Bool) : RiskResult :=
  let growth_rate := metrics.growth_rate
  let volatility_norm := metrics.volatility_norm
  let death_ratio := metrics.death_ratio
  let base_score := baseScore metrics
  let branch :=
    match (if use_climate_boost then target_date else none) with
    | some d =>
      let acc := calculate_weather_aware_risk base_score d region_id
      let adjusted_score := acc.1
      let climate_explanation := acc.2.1
      let climate_context := acc.2.2
      let info := ClimateInfo.enabled base_score climate_context.climate_multiplier
        adjusted_score climate_explanation climate_context.season
        climate_context.is_monsoon
      let boost_pct :=
        if base_score > 0 then (adjusted_score - base_score) / base_score * 100 else 0
      let climate_drivers :=
        if 10 < |boost_pct| then [climate_explanation] else []
      (adjusted_score, climate_drivers, info)
    | none => (base_score, [], ClimateInfo.disabled base_score)
  let score := branch.1
  let drivers0 := branch.2.1 ++
    (if growth_rate ≥ 30/100 then ["High 7-day growth"] else []) ++
    (if volatility_norm ≥ 15/100 then ["High volatility"] else []) ++
    (if death_ratio ≥ 2/100 then ["High death ratio"] else [])
  let drivers := if drivers0 = [] then ["Stable trend"] else drivers0
  let risk_level :=
    if score ≥ 70/100 then "HIGH" else if score ≥ 40/100 then "MEDIUM" else "LOW"
  { score := score, risk_level := risk_level, drivers := drivers,
    climate_info := branch.2.2 }

/-- The seven-observation scenario of the specification: region `R1`,
disease `D1`, confirmed `[100,110,120,90,95,130,140]` and deaths
`[1,1,1,1,1,1,2]` on seven ascending dates. -/
def scenarioStoreC3 : List CaseDoc :=
  [⟨"R1", 1, some "D1", none, 100, 1⟩,
   ⟨"R1", 2, some "D1", none, 110, 1⟩,
   ⟨"R1", 3, some "D1", none, 120, 1⟩,
   ⟨"R1", 4, some "D1", none, 90, 1⟩,
   ⟨"R1", 5, some "D1", none, 95, 1⟩,
   ⟨"R1", 6, some "D1", none, 130, 1⟩,
   ⟨"R1", 7, some "D1", none, 140, 2⟩]

/-- The granularity parameter `Literal["yearly", "monthly", "weekly"]` of the
forecasting services. -/
inductive Gran where
  | yearly
  | monthly
  | weekly
deriving DecidableEq

/-- The string value of a granularity parameter. -/
def granToStr : Gran → String
  | .yearly => "yearly"
  | .monthly => "monthly"
  | .weekly => "weekly"

/-- `LOOKBACK_CONFIG` from `forecasting.py`; the `.get(granularity, 6)`
default is unreachable because the parameter type has three values. -/
def lookbackConfig : Gran → ℕ
  | .yearly => 3
  | .monthly => 6
  | .weekly => 12

/-- `ARIMA_LOOKBACK_CONFIG` from `arima_forecasting.py`; the `.get(.., 24)`
default is likewise unreachable. -/
def arimaLookbackConfig : Gran → ℕ
  | .yearly => 5
  | .monthly => 24
  | .weekly => 52

/-- `SEASONAL_PERIODS` from `arima_forecasting.py`. -/
def seasonalPeriods : Gran → ℕ
  | .yearly => 1
  | .monthly => 12
  | .weekly => 52

/-- The granularity clause shared by both strategies' case filters:
`"yearly"` selects documents with NO granularity tag
(`{"granularity": {"$exists": False}}`, legacy yearly data); any other
granularity selects exactly the matching tag. -/
def granClause (g : Gran) (tag : Option String) : Bool :=
  if g = .yearly then tag == none else tag == some (granToStr g)

/-- The case filter built by `generate_forecast` (`forecasting.py`):
region, `date ≤ target`, optional disease, granularity clause. -/
def forecastCaseMatch (rid : String) (target : ℕ) (disease : Option String)
    (g : Gran) (doc : CaseDoc) : Bool :=
  doc.region_id == rid && decide (doc.date ≤ target) &&
    (match disease with | some dz => doc.disease == some dz | none => true) &&
    granClause g doc.granularity

/-- `_resolve_target_date(cases_col, target_date, disease, granularity)` from
`forecasting.py`: the given date, or the latest date among the documents
matching the disease and granularity filters (`find_one` sorted descending by
date). -/
def resolve_target_date (cases : List CaseDoc) (target_date : Option ℕ)
    (disease : Option String) (granularity : Option Gran) : Option ℕ :=
  match target_date with
  | some t => some t
  | none =>
    ((cases.filter (fun d =>
        (match disease with | some dz => d.disease == some dz | none => true) &&
        (match granularity with
         | some g => granClause g d.granularity
         | none => true))).map (fun d => d.date)).max?

/-- One row of the `forecasts_daily` collection.  The wall-clock
`generated_at` and the ARIMA-only `model_order` metadata are not modelled:
no claim reads them. -/
structure ForecastDoc where
  region_id : String
  date : ℕ
  pred_mean : ℚ
  pred_lower : ℚ
  pred_upper : ℚ
  model_version : String
  source_granularity : Gran
  disease : Option String
deriving DecidableEq

/-- The upsert filter `{region_id, date, model_version}` used by both
forecasting strategies: does the stored document `d` match the key of the
new document `a`? -/
def forecastKeyMatch (a d : ForecastDoc) : Bool :=
  d.region_id == a.region_id && d.date == a.date && d.model_version == a.model_version

/-- The `$set` update for a forecast upsert: every field of the new document
is written; the `disease` key is present in the update document only when a
disease was given, so `disease = none` leaves a stored disease in place. -/
def forecastSet (old new : ForecastDoc) : ForecastDoc :=
  { new with disease := match new.disease with | some dz => some dz | none => old.disease }

/-- `forecasts_col.update_one(filter, {"$set": doc}, upsert=True)`: update the
first matching document, or append the new one. -/
def upsertForecast (store : List ForecastDoc) (a : ForecastDoc) : List ForecastDoc :=
  match store with
  | [] => [a]
  | d :: t => if forecastKeyMatch a d then forecastSet d a :: t else d :: upsertForecast t a

/-- The lookback window read by the naive strategy: the `lookbackConfig g`
most recent matching observations (descending by date). -/
def naiveWindow (cases : List CaseDoc) (rid : String) (target : ℕ)
    (disease : Option String) (g : Gran) : List CaseDoc :=
  (sortB caseDateDesc (cases.filter (forecastCaseMatch rid target disease g))).take
    (lookbackConfig g)

/-- `generate_forecast(region_id, target_date, horizon, run_ts, disease,
granularity)` from `forecasting.py` (naive strategy): a flat forecast of the
window mean with a fixed ±10% interval, one record per horizon day, upserted
by `(region_id, date, model_version)`.  Returns the emitted records and the
updated forecast store. -/
def generate_forecast (cases : List CaseDoc) (fstore : List ForecastDoc)
    (region_id : String) (target_date : Option ℕ) (horizon : ℕ)
    (disease : Option String) (granularity : Gran) :
    List ForecastDoc × List ForecastDoc :=
  match resolve_target_date cases target_date disease (some granularity) with
  | none => ([], fstore)
  | some target =>
    let last_docs := naiveWindow cases region_id target disease granularity
    if last_docs = [] then ([], fstore)
    else
      let confirmed_series := last_docs.map (fun d => (d.confirmed : ℚ))
      let pred_mean := listMean confirmed_series
      let pred_lower := pred_mean * (9/10)
      let pred_upper := pred_mean * (11/10)
      let forecasts := (List.range horizon).map (fun i =>
        ({ region_id := region_id
           date := target + (i + 1)
           pred_mean := pred_mean
           pred_lower := pred_lower
           pred_upper := pred_upper
           model_version := "naive_v2"
           source_granularity := granularity
           disease := disease } : ForecastDoc))
      (forecasts, forecasts.foldl upsertForecast fstore)

/-- Abstraction of a fitted `pmdarima` model:
`model.predict(n_periods, return_conf_int=True)` yields a point-forecast list
and the two confidence-interval columns.  The floating-point fit is opaque,
so the claims below quantify over every possible fitted model. -/
structure FittedModel where
  predMean : ℕ → List ℚ
  predLower : ℕ → List ℚ
  predUpper : ℕ → List ℚ

/-- `_fit_arima_model(series, seasonal, seasonal_period)` from
`arima_forecasting.py`: `none` for fewer than 10 points, else the abstract
`auto_arima` fit `fit`, which may itself fail (`none`). -/
def fit_arima_model (fit : List ℤ → Bool → ℕ → Option FittedModel)
    (series : List ℤ) (seasonal : Bool) (seasonal_period : ℕ) :
    Option FittedModel :=
  if series.length < 10 then none else fit series seasonal seasonal_period

/-- `_generate_arima_predictions(model, horizon)` from
`arima_forecasting.py`: clip every prediction and interval bound to be
non-negative (`max(0, ·)`). -/
def generate_arima_predictions (model : FittedModel) (horizon : ℕ) :
    List ℚ × List ℚ × List ℚ :=
  ((model.predMean horizon).map (fun p => max 0 p),
   (model.predLower horizon).map (fun p => max 0 p),
   (model.predUpper horizon).map (fun p => max 0 p))

/-- The `case_filter` of `generate_arima_forecast`: region, `date ≤ target`
only when a target date is given, optional disease, granularity clause. -/
def arimaCaseMatch (rid : String) (target : Option ℕ) (disease : Option String)
    (g : Gran) (doc : CaseDoc) : Bool :=
  doc.region_id == rid &&
    (match target with | some t => decide (doc.date ≤ t) | none => true) &&
    (match disease with | some dz => doc.disease == some dz | none => true) &&
    granClause g doc.granularity

/-- The (descending-ordered) lookback slice read by the ARIMA strategy. -/
def arimaWindow (cases : List CaseDoc) (rid : String) (target : Option ℕ)
    (disease : Option String) (g : Gran) : List CaseDoc :=
  (sortB caseDateDesc (cases.filter (arimaCaseMatch rid target disease g))).take
    (arimaLookbackConfig g)

/-- The record-emission loop
`for i, (pred, lower, upper) in enumerate(zip(predictions, lower_bounds,
upper_bounds))` of `generate_arima_forecast`, with `round(x, 2)` on each
value and forecast date `target + (i + 1)`. -/
def arimaDocs (rid : String) (target : ℕ) (mv : String) (g : Gran)
    (dis : Option String) : ℕ → List (ℚ × ℚ × ℚ) → List ForecastDoc
  | _, [] => []
  | i, (p, lu) :: t =>
    { region_id := rid
      date := target + (i + 1)
      pred_mean := round2 p
      pred_lower := round2 lu.1
      pred_upper := round2 lu.2
      model_version := mv
      source_granularity := g
      disease := dis } :: arimaDocs rid target mv g dis (i + 1) t

/-- `generate_arima_forecast(region_id, target_date, horizon, run_ts,
disease, granularity, use_seasonal)` from `arima_forecasting.py`.  Soft
failures (fewer than 10 points, failed fit, empty prediction) return no
records.  Returns the emitted records and the updated forecast store. -/
def generate_arima_forecast (fit : List ℤ → Bool → ℕ → Option FittedModel)
    (cases : List CaseDoc) (fstore : List ForecastDoc) (region_id : String)
    (target_date : Option ℕ) (horizon : ℕ) (disease : Option String)
    (granularity : Gran) (use_seasonal : Bool) :
    List ForecastDoc × List ForecastDoc :=
  let historical_docs := arimaWindow cases region_id target_date disease granularity
  if historical_docs.length < 10 then ([], fstore)
  else
    let docs := historical_docs.reverse
    let confirmed_series := docs.map (fun d => d.confirmed)
    let target :=
      match target_date with
      | some t => t
      | none => (docs.getLastD ⟨region_id, 0, none, none, 0, 0⟩).date
    let seasonal_period := seasonalPeriods granularity
    match fit_arima_model fit confirmed_series
        (use_seasonal && decide (seasonal_period * 2 ≤ confirmed_series.length))
        seasonal_period with
    | none => ([], fstore)
    | some model =>
      let preds := generate_arima_predictions model horizon
      if preds.1 = [] then ([], fstore)
      else
        let model_version := if use_seasonal then "sarima_v1" else "arima_v1"
        let forecasts := arimaDocs region_id target model_version granularity
          disease 0 (preds.1.zip (preds.2.1.zip preds.2.2))
        (forecasts, forecasts.foldl upsertForecast fstore)

/-- The six-observation monthly scenario of the specification: confirmed
`[100, 110, 120, 90, 95, 130]` tagged `monthly` on six ascending dates. -/
def scenarioStoreC6 : List CaseDoc :=
  [⟨"R1", 1, some "D1", some "monthly", 100, 1⟩,
   ⟨"R1", 2, some "D1", some "monthly", 110, 1⟩,
   ⟨"R1", 3, some "D1", some "monthly", 120, 1⟩,
   ⟨"R1", 4, some "D1", some "monthly", 90, 1⟩,
   ⟨"R1", 5, some "D1", some "monthly", 95, 1⟩,
   ⟨"R1", 6, some "D1", some "monthly", 130, 1⟩]

/-- `safe_mape(actual, predicted)` from `evaluation.py`: `none` when the
actual value is zero or below the `1e-10` guard, else the absolute
percentage error. -/
def safe_mape (actual predicted : ℚ) : Option ℚ :=
  if actual = 0 ∨ |actual| < tinyGuard then none
  else some (|(actual - predicted) / actual| * 100)

/-- Sort comparison for `.sort("date", ASCENDING)` on forecast documents. -/
def forecastDateAsc (a b : ForecastDoc) : Bool := decide (a.date ≤ b.date)

/-- The forecast query of `evaluate_forecast`: `{"region_id": region_id}`
plus `{"date": {"$gte": date}}` when a date is given — note: no disease and
no `model_version` clause. -/
def evalForecastMatch (rid : String) (date : Option ℕ) (f : ForecastDoc) : Bool :=
  f.region_id == rid &&
    (match date with | some d => decide (d ≤ f.date) | none => true)

/-- The forecast selection of `evaluate_forecast`: the first `horizon`
matching records in ascending date order. -/
def evalSelection (fstore : List ForecastDoc) (rid : String) (date : Option ℕ)
    (horizon : ℕ) : List ForecastDoc :=
  (sortB forecastDateAsc (fstore.filter (evalForecastMatch rid date))).take horizon

/-- `cases_col.find_one({"region_id": region_id, "date": forecast_date})` in
the evaluation loop: the first stored observation with that region and exact
date — no disease and no granularity clause. -/
def findActual (cstore : List CaseDoc) (rid : String) (d : ℕ) : Option CaseDoc :=
  cstore.find? (fun c => c.region_id == rid && c.date == d)

/-- The accumulation loop of `evaluate_forecast`: absolute errors (for MAE),
defined MAPE terms, and the compared dates, in forecast order. -/
def evalLoop (cstore : List CaseDoc) (rid : String) :
    List ForecastDoc → List ℚ × List ℚ × List ℕ
  | [] => ([], [], [])
  | f :: t =>
    let rest := evalLoop cstore rid t
    match findActual cstore rid f.date with
    | none => rest
    | some c =>
      let actual := (c.confirmed : ℚ)
      let abs_error := |actual - f.pred_mean|
      (abs_error :: rest.1,
       (match safe_mape actual f.pred_mean with
        | some v => v :: rest.2.1
        | none => rest.2.1),
       f.date :: rest.2.2)

/-- The result dictionary of `evaluate_forecast`.  The `evaluated_at`
timestamp is not modelled. -/
structure EvalResult where
  region_id : String
  horizon : ℕ
  mae : Option ℚ
  mape : Option ℚ
  points_compared : ℕ
  model_version : String
  dates_evaluated : List ℕ
  error : Option String
deriving DecidableEq

/-- `evaluate_forecast(region_id, date, horizon)` from `evaluation.py`.
When no forecast matches, a null-metric result with an error string is
returned; otherwise the reported `model_version` is read off the first
selected record (`forecasts[0]`, whose `.get` default `"naive_v1"` is
unreachable here because the field is total in the model). -/
def evaluate_forecast (fstore : List ForecastDoc) (cstore : List CaseDoc)
    (region_id : String) (date : Option ℕ) (horizon : ℕ) : EvalResult :=
  match evalSelection fstore region_id date horizon with
  | [] =>
    { region_id := region_id
      horizon := horizon
      mae := none
      mape := none
      points_compared := 0
      model_version := "naive_v1"
      dates_evaluated := []
      error := some "No forecasts found for this region" }
  | f0 :: rest =>
    let acc := evalLoop cstore region_id (f0 :: rest)
    let errors := acc.1
    let mape_values := acc.2.1
    let points_compared := errors.length
    let mae :=
      if 0 < points_compared then some (errors.sum / points_compared) else none
    let mape :=
      if mape_values = [] then none
      else some (mape_values.sum / mape_values.length)
    { region_id := region_id
      horizon := horizon
      mae := mae.map round2
      mape := mape.map round2
      points_compared := points_compared
      model_version := f0.model_version
      dates_evaluated := acc.2.2
      error := none }

/-- Spec-side (C8, amended): the selected forecast records that have an
actual observation on their exact date. -/
def specCompared (fstore : List ForecastDoc) (cstore : List CaseDoc)
    (rid : String) (date : Option ℕ) (horizon : ℕ) : List ForecastDoc :=
  (evalSelection fstore rid date horizon).filter
    (fun f => (findActual cstore rid f.date).isSome)

/-- Spec-side (C8, amended): the actual confirmed value looked up for a
forecast day (`0` placeholder when absent; only applied to compared days). -/
def specActual (cstore : List CaseDoc) (rid : String) (f : ForecastDoc) : ℚ :=
  match findActual cstore rid f.date with
  | some c => (c.confirmed : ℚ)
  | none => 0

/-- Spec-side (C8, amended): MAE is the mean of `|actual − predicted|` over
ALL compared days — days with a zero actual included. -/
def specMAE (fstore : List ForecastDoc) (cstore : List CaseDoc) (rid : String)
    (date : Option ℕ) (horizon : ℕ) : Option ℚ :=
  let l := specCompared fstore cstore rid date horizon
  if l = [] then none
  else some (listMean (l.map (fun f => |specActual cstore rid f - f.pred_mean|)))

/-- Spec-side (C8, amended): MAPE averages `|actual − predicted|/|actual|×100`
over only the compared days whose actual is not (approximately) zero. -/
def specMAPE (fstore : List ForecastDoc) (cstore : List CaseDoc) (rid : String)
    (date : Option ℕ) (horizon : ℕ) : Option ℚ :=
  let l := (specCompared fstore cstore rid date horizon).filter
    (fun f => !decide (specActual cstore rid f = 0 ∨
      |specActual cstore rid f| < tinyGuard))
  if l = [] then none
  else some (listMean (l.map
    (fun f => |specActual cstore rid f - f.pred_mean| / |specActual cstore rid f| * 100)))

/-- The single stored forecast of the C8 counterexample: region `R1`,
forecast date `50`. -/
def c8ForecastStore : List ForecastDoc :=
  [⟨"R1", 50, 100, 90, 110, "naive_v2", .monthly, none⟩]

/-- The single observation of the C8 counterexample: region `R1`, date `50`,
confirmed `105`. -/
def c8CaseStore : List CaseDoc :=
  [⟨"R1", 50, none, none, 105, 0⟩]

/-- A forecast store holding records of two model families for one region
(naive on day 10, SARIMA on day 11). -/
def mixedForecastStore : List ForecastDoc :=
  [⟨"R1", 10, 100, 90, 110, "naive_v2", .monthly, none⟩,
   ⟨"R1", 11, 200, 180, 220, "sarima_v1", .monthly, none⟩]

/-- Observations for both days of `mixedForecastStore`. -/
def mixedCaseStore : List CaseDoc :=
  [⟨"R1", 10, none, none, 110, 0⟩,
   ⟨"R1", 11, none, none, 180, 0⟩]

/-- A retagging that changes only the `model_version` field. -/
def retagX (f : ForecastDoc) : ForecastDoc := { f with model_version := "X" }

/-- One row of the `risk_scores` collection as read by `generate_alerts`
(the stored `drivers`, `metrics`, `climate_info` and `updated_at` fields are
never read by the alert engine, so they are not modelled). -/
structure RiskDoc where
  region_id : String
  date : ℕ
  risk_score : ℚ
  risk_level : String
  disease : Option String
deriving DecidableEq

/-- The reason string `f"Risk score {score:.2f} >= threshold {threshold:.2f}"`
modelled by its formatted content: the pair of two-decimal rounded values.
Two reason strings are equal exactly when these pairs are equal. -/
def mkReason (score threshold : ℚ) : ℚ × ℚ := (round2 score, round2 threshold)

/-- One row of the `alerts` collection (`created_at` not modelled). -/
structure AlertDoc where
  region_id : String
  date : ℕ
  risk_score : ℚ
  risk_level : String
  reason : ℚ × ℚ
  disease : Option String
deriving DecidableEq

/-- The alert upsert filter
`{"region_id": alert["region_id"], "date": target_date, "reason": alert["reason"]}`
from `alerts.py`: region, date and reason — `disease` is NOT in the filter. -/
def alertKeyMatch (a d : AlertDoc) : Prop :=
  d.region_id = a.region_id ∧ d.date = a.date ∧ d.reason = a.reason

instance (a d : AlertDoc) : Decidable (alertKeyMatch a d) := by
  unfold alertKeyMatch
  infer_instance

/-- The natural key the alert upsert filters on. -/
def alertKey (a : AlertDoc) : String × ℕ × (ℚ × ℚ) := (a.region_id, a.date, a.reason)

/-- `$set` update for an alert upsert: every field of the new alert is
written; the `disease` key is present in the update document only when a
disease was given, so `disease = none` leaves a stored disease in place. -/
def alertSet (old new : AlertDoc) : AlertDoc :=
  { new with disease := match new.disease with | some dz => some dz | none => old.disease }

/-- `alerts_col.update_one(filter, {"$set": alert}, upsert=True)`: update the
first matching document, or append the new one. -/
def upsertAlert (store : List AlertDoc) (a : AlertDoc) : List AlertDoc :=
  match store with
  | [] => [a]
  | d :: t => if alertKeyMatch a d then alertSet d a :: t else d :: upsertAlert t a

/-- Proof-side view of MongoDB `find_one` on the alerts collection by
natural key: the first stored document whose key is `k`. -/
def findByKey (s : List AlertDoc) (k : String × ℕ × (ℚ × ℚ)) : Option AlertDoc :=
  s.find? (fun d => decide (alertKey d = k))

/-- The disease clause of the `generate_alerts` risk queries. -/
def riskDiseaseMatch (disease : Option String) (rd : RiskDoc) : Bool :=
  match disease with | some dz => rd.disease == some dz | none => true

/-- Sort comparison for `.sort("risk_score", DESCENDING)` on risk documents. -/
def riskScoreDesc (a b : RiskDoc) : Bool := decide (b.risk_score ≤ a.risk_score)

/-- Sort comparison for the final descending-by-score sort of the returned
alerts. -/
def alertScoreDesc (a b : AlertDoc) : Bool := decide (b.risk_score ≤ a.risk_score)

/-- Date resolution of `generate_alerts`: the given date, or the latest date
carrying any (disease-matching) risk score. -/
def resolveAlertDate (target_date : Option ℕ) (disease : Option String)
    (riskStore : List RiskDoc) : Option ℕ :=
  match target_date with
  | some t => some t
  | none =>
    ((riskStore.filter (riskDiseaseMatch disease)).map (fun rd => rd.date)).max?

/-- The risk documents read by `generate_alerts` for the resolved date,
sorted descending by score. -/
def alertRiskDocs (target : ℕ) (disease : Option String)
    (riskStore : List RiskDoc) : List RiskDoc :=
  sortB riskScoreDesc (riskStore.filter
    (fun rd => riskDiseaseMatch disease rd && rd.date == target))

/-- The alert document built in the loop of `generate_alerts` for one risk
document (`disease` key present only when the disease argument was given). -/
def mkAlert (target : ℕ) (threshold : ℚ) (disease : Option String)
    (rd : RiskDoc) : AlertDoc :=
  { region_id := rd.region_id
    date := target
    risk_score := rd.risk_score
    risk_level := rd.risk_level
    reason := mkReason rd.risk_score threshold
    disease := disease }

/-- The alerts emitted by one `generate_alerts` run: one per risk document
at or above the threshold (`if score < threshold: continue`), in
score-descending risk-document order. -/
def alertCandidates (threshold : ℚ) (target : ℕ) (disease : Option String)
    (riskStore : List RiskDoc) : List AlertDoc :=
  ((alertRiskDocs target disease riskStore).filter
    (fun rd => !decide (rd.risk_score < threshold))).map
    (mkAlert target threshold disease)

/-- `generate_alerts(target_date, disease)` from `alerts.py`; the
configurable `settings.risk_high_threshold` (default `0.7`) is passed
explicitly.  Returns the resolved date, the returned alert list (sorted
descending by score) and the updated alert store. -/
def generate_alerts (threshold : ℚ) (target_date : Option ℕ)
    (disease : Option String) (riskStore : List RiskDoc)
    (alertStore : List AlertDoc) :
    Option ℕ × List AlertDoc × List AlertDoc :=
  match resolveAlertDate target_date disease riskStore with
  | none => (none, [], alertStore)
  | some target =>
    if alertRiskDocs target disease riskStore = [] then (some target, [], alertStore)
    else
      let alerts := alertCandidates threshold target disease riskStore
      (some target, sortB alertScoreDesc alerts, alerts.foldl upsertAlert alertStore)

/-- The C4 scenario: one HIGH risk score (`0.8`) at the same region and date
for each of two diseases — exactly what the repository's own
multi-disease-isolation test inserts, except with equal scores. -/
def c4RiskStore : List RiskDoc :=
  [⟨"R1", 15, 4/5, "HIGH", some "DENGUE"⟩,
   ⟨"R1", 15, 4/5, "HIGH", some "COVID"⟩]

-- THEOREMS

/-- `clip01` stays within `[0, 1]`. -/
theorem clip01_nonneg (x : ℚ) : 0 ≤ clip01 x := le_max_left 0 _

theorem clip01_le_one (x : ℚ) : clip01 x ≤ 1 := by
  unfold clip01
  rcases le_total x 1 with h | h
  · simp [min_eq_left h]
  · simp [min_eq_right h]

/-- A `dict.get(k, dflt)` over a table of non-negative values, with a
non-negative default, is non-negative. -/
theorem lookup_getD_nonneg (l : List (ℕ × ℚ)) (hl : ∀ p ∈ l, 0 ≤ p.2)
    (k : ℕ) (d : ℚ) (hd : 0 ≤ d) : 0 ≤ (l.lookup k).getD d := by
  induction l with
  | nil => simpa using hd
  | cons p t ih =>
    simp only [List.lookup]
    rcases hbeq : (k == p.1) with _ | _
    · exact ih fun q hq => hl q (List.mem_cons_of_mem p hq)
    · simpa using hl p (List.mem_cons_self p t)

/-- Every multiplier in the monsoon table, and the `1.0` fallback, is
non-negative. -/
theorem monsoonMultiplier_nonneg (m : ℕ) : 0 ≤ monsoonMultiplier m := by
  refine lookup_getD_nonneg _ ?_ m 1 (by norm_num)
  intro p hp
  unfold monsoonRiskMultipliers at hp
  fin_cases hp <;> norm_num

/-- The multiplier returned by `get_climate_risk_multiplier` is non-negative
on every input, including the malformed-date fallback. -/
theorem get_climate_risk_multiplier_nonneg (d : DateStr) (rid : Option String) :
    0 ≤ (get_climate_risk_multiplier d rid).1 := by
  cases d with
  | invalid => norm_num [get_climate_risk_multiplier]
  | valid month =>
    unfold get_climate_risk_multiplier
    rcases h : monthName month with _ | mn <;> simp only [h]
    · norm_num
    · simpa using monsoonMultiplier_nonneg month

/-- The base score lies in `[0, 1]`. -/
theorem baseScore_nonneg (m : Metrics) : 0 ≤ baseScore m := by
  unfold baseScore
  nlinarith [clip01_nonneg m.growth_rate, clip01_nonneg (m.volatility_norm * 2),
    clip01_nonneg (m.death_ratio * 50)]

theorem baseScore_le_one (m : Metrics) : baseScore m ≤ 1 := by
  unfold baseScore
  nlinarith [clip01_le_one m.growth_rate, clip01_le_one (m.volatility_norm * 2),
    clip01_le_one (m.death_ratio * 50)]

/-- Branch equation: with the climate branch not taken, the returned score is
the base score. -/
theorem compute_risk_score_score_off (m : Metrics) (td : Option DateStr)
    (rid : Option String) (b : Bool) (h : (if b then td else none) = none) :
    (compute_risk_score m td rid b).score = baseScore m := by
  simp only [compute_risk_score, h]

/-- Branch equation: with the climate branch taken, the returned score is the
capped product of the base score and the climate multiplier. -/
theorem compute_risk_score_score_on (m : Metrics) (td : Option DateStr)
    (rid : Option String) (b : Bool) (d : DateStr)
    (h : (if b then td else none) = some d) :
    (compute_risk_score m td rid b).score =
      min 1 (baseScore m * (get_climate_risk_multiplier d rid).1) := by
  simp only [compute_risk_score, h, calculate_weather_aware_risk]

/-- C1. For every `RegionMetrics` input — any rational `growth_rate`,
`volatility_norm` and `death_ratio` — `compute_risk_score` returns a score in
`[0, 1]` and a non-empty drivers list, both with climate adjustment enabled
(`use_climate_boost = true`, any target date) and disabled. -/
theorem c1_score_bounded_drivers_nonempty (m : Metrics) (td : Option DateStr)
    (rid : Option String) (b : Bool) :
    0 ≤ (compute_risk_score m td rid b).score ∧
      (compute_risk_score m td rid b).score ≤ 1 ∧
      (compute_risk_score m td rid b).drivers ≠ [] := by
  refine ⟨?_, ?_, ?_⟩
  · rcases h : (if b then td else none) with _ | d
    · rw [compute_risk_score_score_off m td rid b h]
      exact baseScore_nonneg m
    · rw [compute_risk_score_score_on m td rid b d h]
      exact le_min (by norm_num)
        (mul_nonneg (baseScore_nonneg m) (get_climate_risk_multiplier_nonneg d rid))
  · rcases h : (if b then td else none) with _ | d
    · rw [compute_risk_score_score_off m td rid b h]
      exact baseScore_le_one m
    · rw [compute_risk_score_score_on m td rid b d h]
      exact min_le_left 1 _
  · obtain ⟨l, hl⟩ : ∃ l, (compute_risk_score m td rid b).drivers =
        if l = [] then ["Stable trend"] else l := ⟨_, rfl⟩
    rw [hl]
    split
    next => simp
    next h => exact h

/-- C2. For every base score `b ∈ [0, 1]` and every multiplier the climate
module produces for a date (valid or malformed), `calculate_weather_aware_risk`
returns exactly `clip(b × multiplier, 0, 1)`, hence a value in `[0, 1]` even
when `b × multiplier > 1`. -/
theorem c2_apply_clips (b : ℚ) (h0 : 0 ≤ b) (h1 : b ≤ 1) (d : DateStr)
    (rid : Option String) :
    (calculate_weather_aware_risk b d rid).1 =
      clip01 (b * (get_climate_risk_multiplier d rid).1) ∧
      0 ≤ (calculate_weather_aware_risk b d rid).1 ∧
      (calculate_weather_aware_risk b d rid).1 ≤ 1 := by
  have hm : 0 ≤ (get_climate_risk_multiplier d rid).1 :=
    get_climate_risk_multiplier_nonneg d rid
  have hprod : 0 ≤ b * (get_climate_risk_multiplier d rid).1 := mul_nonneg h0 hm
  have hadj : (calculate_weather_aware_risk b d rid).1 =
      min 1 (b * (get_climate_risk_multiplier d rid).1) := by
    simp only [calculate_weather_aware_risk]
  refine ⟨?_, ?_, ?_⟩
  · rw [hadj]
    unfold clip01
    rw [max_eq_right (le_min (by norm_num) hprod)]
  · rw [hadj]
    exact le_min (by norm_num) hprod
  · rw [hadj]
    exact min_le_left 1 _

/-- Witness for C2 at `b = 1/2` and a July date. -/
theorem c2_apply_clips_witness :
    (0 : ℚ) ≤ 1/2 ∧ (1 : ℚ)/2 ≤ 1 ∧
      ((calculate_weather_aware_risk (1/2) (.valid 7) none).1 =
        clip01 (1/2 * (get_climate_risk_multiplier (.valid 7) none).1) ∧
        0 ≤ (calculate_weather_aware_risk (1/2) (.valid 7) none).1 ∧
        (calculate_weather_aware_risk (1/2) (.valid 7) none).1 ≤ 1) :=
  ⟨by norm_num, by norm_num,
    c2_apply_clips (1/2) (by norm_num) (by norm_num) (.valid 7) none⟩

/-- C3. With climate adjustment disabled, the composite risk score equals
exactly `0.65·clip01(growth) + 0.25·clip01(volatility×2) +
0.10·clip01(death_ratio×50)`; the computation is a pure function of the
metrics (deterministic by construction), and on the seven-observation
scenario (confirmed `[100,110,120,90,95,130,140]`) the derived growth rate is
`(140 − 100)/100 = 0.40`, for every standard-deviation routine `std`. -/
theorem c3_base_formula_and_scenario :
    (∀ (m : Metrics) (td : Option DateStr) (rid : Option String),
      (compute_risk_score m td rid false).score =
        65/100 * clip01 m.growth_rate + 25/100 * clip01 (m.volatility_norm * 2)
          + 10/100 * clip01 (m.death_ratio * 50)) ∧
    (∀ std : List ℚ → ℚ,
      (compute_region_metrics std "R1" (some 7) scenarioStoreC3 (some "D1")).map
        Metrics.growth_rate = some (2/5)) := by
  constructor
  · intro m td rid
    rw [compute_risk_score_score_off m td rid false rfl]
    unfold baseScore
    ring
  · intro std
    simp only [compute_region_metrics, scenarioStoreC3, caseQueryMatch,
      caseDateDesc, sortB, insertB, List.filter, safe_divide, tinyGuard,
      listMean, series_std]
    norm_num
    exact ⟨_, ⟨by simp, rfl⟩, rfl⟩

/-- Membership is invariant under `insertB`. -/
theorem mem_insertB {α : Type} (le : α → α → Bool) (x y : α) (l : List α) :
    y ∈ insertB le x l ↔ y = x ∨ y ∈ l := by
  induction l with
  | nil => simp [insertB]
  | cons z t ih =>
    simp only [insertB]
    split
    · simp
    · simp only [List.mem_cons, ih]
      tauto

/-- Membership is invariant under the insertion sort `sortB`. -/
theorem mem_sortB {α : Type} (le : α → α → Bool) (y : α) (l : List α) :
    y ∈ sortB le l ↔ y ∈ l := by
  induction l with
  | nil => simp [sortB]
  | cons z t ih => simp [sortB, mem_insertB, ih]

/-- Members of the naive lookback window come from the case store and satisfy
the query filter. -/
theorem mem_naiveWindow (cases : List CaseDoc) (rid : String) (target : ℕ)
    (dis : Option String) (g : Gran) (d : CaseDoc)
    (hd : d ∈ naiveWindow cases rid target dis g) :
    d ∈ cases ∧ forecastCaseMatch rid target dis g d = true := by
  have h1 := List.mem_of_mem_take hd
  rw [mem_sortB] at h1
  exact ⟨List.mem_of_mem_filter h1, List.of_mem_filter h1⟩

/-- Members of the ARIMA lookback window come from the case store and satisfy
the query filter. -/
theorem mem_arimaWindow (cases : List CaseDoc) (rid : String) (target : Option ℕ)
    (dis : Option String) (g : Gran) (d : CaseDoc)
    (hd : d ∈ arimaWindow cases rid target dis g) :
    d ∈ cases ∧ arimaCaseMatch rid target dis g d = true := by
  have h1 := List.mem_of_mem_take hd
  rw [mem_sortB] at h1
  exact ⟨List.mem_of_mem_filter h1, List.of_mem_filter h1⟩

/-- A satisfied granularity clause pins the document's tag: no tag for
`yearly`, the exact matching tag otherwise. -/
theorem granClause_spec (g : Gran) (tag : Option String)
    (h : granClause g tag = true) :
    (g = .yearly → tag = none) ∧ (g ≠ .yearly → tag = some (granToStr g)) := by
  unfold granClause at h
  constructor
  · intro hg
    rw [if_pos hg] at h
    simpa using h
  · intro hg
    rw [if_neg hg] at h
    simpa using h

/-- C7. Granularity selection, for both forecasting strategies: a
`yearly` request selects only observations with no granularity tag (even if
tagged monthly/weekly observations exist in the store, they never enter the
window), and any other granularity selects only observations whose tag
matches it exactly. -/
theorem c7_granularity_selection (cases : List CaseDoc) (rid : String)
    (target : ℕ) (targetOpt : Option ℕ) (dis : Option String) (g : Gran) :
    (∀ d ∈ naiveWindow cases rid target dis g,
      (g = .yearly → d.granularity = none) ∧
      (g ≠ .yearly → d.granularity = some (granToStr g))) ∧
    (∀ d ∈ arimaWindow cases rid targetOpt dis g,
      (g = .yearly → d.granularity = none) ∧
      (g ≠ .yearly → d.granularity = some (granToStr g))) := by
  constructor
  · intro d hd
    have h := (mem_naiveWindow cases rid target dis g d hd).2
    unfold forecastCaseMatch at h
    simp only [Bool.and_eq_true] at h
    exact granClause_spec g d.granularity h.2
  · intro d hd
    have h := (mem_arimaWindow cases rid targetOpt dis g d hd).2
    unfold arimaCaseMatch at h
    simp only [Bool.and_eq_true] at h
    exact granClause_spec g d.granularity h.2

/-- Witness for C7: a yearly window over a store holding both an untagged
and a monthly observation contains the untagged one, and the monthly record
is excluded. -/
theorem c7_granularity_selection_witness :
    (⟨"R1", 1, none, none, 5, 0⟩ : CaseDoc) ∈
        naiveWindow [⟨"R1", 1, none, none, 5, 0⟩,
          ⟨"R1", 2, none, some "monthly", 9, 0⟩] "R1" 3 none .yearly ∧
      (⟨"R1", 1, none, none, 5, 0⟩ : CaseDoc).granularity = none ∧
      (⟨"R1", 2, none, some "monthly", 9, 0⟩ : CaseDoc) ∉
        naiveWindow [⟨"R1", 1, none, none, 5, 0⟩,
          ⟨"R1", 2, none, some "monthly", 9, 0⟩] "R1" 3 none .yearly := by
  refine ⟨?_, ?_, ?_⟩
  · decide
  · exact ((c7_granularity_selection
      [⟨"R1", 1, none, none, 5, 0⟩, ⟨"R1", 2, none, some "monthly", 9, 0⟩]
      "R1" 3 none none .yearly).1 ⟨"R1", 1, none, none, 5, 0⟩ (by decide)).1 rfl
  · decide

/-- C6. For every region whose lookback window is non-empty, the naive
strategy emits one record per horizon day, each carrying the identical flat
forecast: `pred_mean` is the mean of confirmed counts over the window,
`pred_lower = pred_mean × 0.90`, `pred_upper = pred_mean × 1.10`; and on the
6-point monthly lookback `[100,110,120,90,95,130]` every horizon day gets
`107.5 / 96.75 / 118.25`. -/
theorem c6_naive_flat_forecast (cases : List CaseDoc) (fstore : List ForecastDoc)
    (rid : String) (td : Option ℕ) (horizon : ℕ) (dis : Option String) (g : Gran)
    (target : ℕ) (hres : resolve_target_date cases td dis (some g) = some target)
    (hwin : naiveWindow cases rid target dis g ≠ []) :
    ((generate_forecast cases fstore rid td horizon dis g).1.length = horizon ∧
      ∀ f ∈ (generate_forecast cases fstore rid td horizon dis g).1,
        f.pred_mean =
            listMean ((naiveWindow cases rid target dis g).map
              (fun d => (d.confirmed : ℚ))) ∧
          f.pred_lower = f.pred_mean * (9/10) ∧
          f.pred_upper = f.pred_mean * (11/10)) ∧
    ((generate_forecast scenarioStoreC6 [] "R1" (some 6) 7 (some "D1") .monthly).1.map
        (fun f => (f.pred_mean, f.pred_lower, f.pred_upper)) =
      List.replicate 7 (215/2, 387/4, 473/4)) := by
  constructor
  · simp only [generate_forecast, hres, if_neg hwin]
    constructor
    · simp
    · intro f hf
      simp only [List.mem_map, List.mem_range] at hf
      obtain ⟨i, _, rfl⟩ := hf
      exact ⟨rfl, rfl, rfl⟩
  · norm_num [generate_forecast, resolve_target_date, naiveWindow,
      forecastCaseMatch, granClause, granToStr, caseDateDesc, sortB, insertB,
      scenarioStoreC6, listMean, List.filter, lookbackConfig,
      List.range_succ, List.replicate]
    simp

/-- Witness for C6 on the monthly scenario store. -/
theorem c6_naive_flat_forecast_witness :
    resolve_target_date scenarioStoreC6 (some 6) (some "D1") (some .monthly) =
        some 6 ∧
      naiveWindow scenarioStoreC6 "R1" 6 (some "D1") .monthly ≠ [] ∧
      (generate_forecast scenarioStoreC6 [] "R1" (some 6) 7 (some "D1")
          .monthly).1.length = 7 :=
  ⟨rfl, by decide,
    (c6_naive_flat_forecast scenarioStoreC6 [] "R1" (some 6) 7 (some "D1")
      .monthly 6 rfl (by decide)).1.1⟩

/-- The mean of a list of non-negative rationals is non-negative. -/
theorem listMean_nonneg (l : List ℚ) (h : ∀ x ∈ l, 0 ≤ x) : 0 ≤ listMean l := by
  unfold listMean
  exact div_nonneg (List.sum_nonneg h) (by positivity)

/-- Two-decimal rounding preserves non-negativity. -/
theorem round2_nonneg (q : ℚ) (h : 0 ≤ q) : 0 ≤ round2 q := by
  unfold round2
  have h2 : (0 : ℤ) ≤ round (q * 100) := by
    rw [round_eq]
    exact Int.floor_nonneg.mpr (by linarith)
  exact div_nonneg (by exact_mod_cast h2) (by norm_num)

/-- Every record emitted by the ARIMA record loop takes its prediction fields
from one zipped triple, rounded to two decimals. -/
theorem mem_arimaDocs (rid : String) (t : ℕ) (mv : String) (g : Gran)
    (dis : Option String) (l : List (ℚ × ℚ × ℚ)) (i : ℕ) (f : ForecastDoc)
    (hf : f ∈ arimaDocs rid t mv g dis i l) :
    ∃ p ∈ l, f.pred_mean = round2 p.1 ∧ f.pred_lower = round2 p.2.1 ∧
      f.pred_upper = round2 p.2.2 := by
  induction l generalizing i with
  | nil => simp [arimaDocs] at hf
  | cons p tl ih =>
    obtain ⟨p1, p2⟩ := p
    simp only [arimaDocs, List.mem_cons] at hf
    rcases hf with rfl | hf
    · exact ⟨(p1, p2), List.mem_cons_self _ _, rfl, rfl, rfl⟩
    · obtain ⟨q, hq, hqs⟩ := ih (i + 1) hf
      exact ⟨q, List.mem_cons_of_mem _ hq, hqs⟩

/-- The records emitted by `generate_arima_forecast` are either empty (a soft
failure) or exactly the `arimaDocs` loop over the zipped, zero-clipped
prediction lists of some fitted model. -/
theorem generate_arima_forecast_emitted
    (fit : List ℤ → Bool → ℕ → Option FittedModel) (cases : List CaseDoc)
    (fstore : List ForecastDoc) (rid : String) (td : Option ℕ) (horizon : ℕ)
    (dis : Option String) (g : Gran) (us : Bool) :
    (generate_arima_forecast fit cases fstore rid td horizon dis g us).1 = [] ∨
    ∃ model target,
      (generate_arima_forecast fit cases fstore rid td horizon dis g us).1 =
        arimaDocs rid target (if us then "sarima_v1" else "arima_v1") g dis 0
          ((generate_arima_predictions model horizon).1.zip
            ((generate_arima_predictions model horizon).2.1.zip
              (generate_arima_predictions model horizon).2.2)) := by
  simp only [generate_arima_forecast]
  split
  · left
    rfl
  · split
    · left
      rfl
    · split
      · left
        rfl
      · right
        exact ⟨_, _, rfl⟩

/-- C5. Every forecast record produced by either strategy carries
non-negative `pred_mean`, `pred_lower` and `pred_upper`: the naive mean of
(non-negative) confirmed counts and its ±10% band are non-negative, and the
ARIMA path clips every model output at zero (`max(0, ·)`) before rounding
and emission — for every possible fitted model. -/
theorem c5_forecasts_nonnegative (cases : List CaseDoc)
    (hc : ∀ d ∈ cases, 0 ≤ d.confirmed)
    (fstore : List ForecastDoc) (rid : String) (td : Option ℕ) (horizon : ℕ)
    (dis : Option String) (g : Gran)
    (fit : List ℤ → Bool → ℕ → Option FittedModel) (us : Bool) :
    (∀ f ∈ (generate_forecast cases fstore rid td horizon dis g).1,
        0 ≤ f.pred_mean ∧ 0 ≤ f.pred_lower ∧ 0 ≤ f.pred_upper) ∧
    (∀ f ∈ (generate_arima_forecast fit cases fstore rid td horizon dis g us).1,
        0 ≤ f.pred_mean ∧ 0 ≤ f.pred_lower ∧ 0 ≤ f.pred_upper) := by
  constructor
  · rcases hres : resolve_target_date cases td dis (some g) with _ | target
    · simp [generate_forecast, hres]
    · by_cases hwin : naiveWindow cases rid target dis g = []
      · simp [generate_forecast, hres, hwin]
      · simp only [generate_forecast, hres, if_neg hwin]
        intro f hf
        simp only [List.mem_map, List.mem_range] at hf
        obtain ⟨i, _, rfl⟩ := hf
        have hm : 0 ≤ listMean ((naiveWindow cases rid target dis g).map
            (fun d => (d.confirmed : ℚ))) := by
          refine listMean_nonneg _ ?_
          intro x hx
          simp only [List.mem_map] at hx
          obtain ⟨d, hd, rfl⟩ := hx
          exact_mod_cast hc d (mem_naiveWindow cases rid target dis g d hd).1
        exact ⟨hm, mul_nonneg hm (by norm_num), mul_nonneg hm (by norm_num)⟩
  · intro f hf
    rcases generate_arima_forecast_emitted fit cases fstore rid td horizon dis g us
      with hsh | ⟨model, target, hsh⟩
    · rw [hsh] at hf
      simp at hf
    · rw [hsh] at hf
      obtain ⟨p, hp, hm, hl, hu⟩ := mem_arimaDocs _ _ _ _ _ _ _ f hf
      obtain ⟨p1, p2⟩ := p
      obtain ⟨hz1, hz2⟩ := List.of_mem_zip hp
      obtain ⟨p21, p22⟩ := p2
      have hz3 := List.of_mem_zip hz2
      have h1 : 0 ≤ p1 := by
        simp only [generate_arima_predictions, List.mem_map] at hz1
        obtain ⟨x, _, rfl⟩ := hz1
        exact le_max_left 0 x
      have h2 : 0 ≤ p21 := by
        have := hz3.1
        simp only [generate_arima_predictions, List.mem_map] at this
        obtain ⟨x, _, rfl⟩ := this
        exact le_max_left 0 x
      have h3 : 0 ≤ p22 := by
        have := hz3.2
        simp only [generate_arima_predictions, List.mem_map] at this
        obtain ⟨x, _, rfl⟩ := this
        exact le_max_left 0 x
      rw [hm, hl, hu]
      exact ⟨round2_nonneg _ h1, round2_nonneg _ h2, round2_nonneg _ h3⟩

/-- Witness for C5: the scenario store has non-negative counts, and both
strategies' outputs on it are non-negative (the abstract fit that always
fails exercises the ARIMA soft-failure path). -/
theorem c5_forecasts_nonnegative_witness :
    (∀ d ∈ scenarioStoreC6, 0 ≤ d.confirmed) ∧
      ((∀ f ∈ (generate_forecast scenarioStoreC6 [] "R1" (some 6) 7 (some "D1")
          .monthly).1, 0 ≤ f.pred_mean ∧ 0 ≤ f.pred_lower ∧ 0 ≤ f.pred_upper) ∧
        (∀ f ∈ (generate_arima_forecast (fun _ _ _ => none) scenarioStoreC6 []
            "R1" (some 6) 7 (some "D1") .monthly true).1,
          0 ≤ f.pred_mean ∧ 0 ≤ f.pred_lower ∧ 0 ≤ f.pred_upper)) :=
  ⟨by decide,
    c5_forecasts_nonnegative scenarioStoreC6 (by decide) [] "R1" (some 6) 7
      (some "D1") .monthly (fun _ _ _ => none) true⟩

/-- The evaluation loop computes exactly: absolute errors over the selected
days that have an observation, defined-MAPE terms over those days, and the
compared dates. -/
theorem evalLoop_spec (cstore : List CaseDoc) (rid : String)
    (l : List ForecastDoc) :
    evalLoop cstore rid l =
      ((l.filter (fun f => (findActual cstore rid f.date).isSome)).map
          (fun f => |specActual cstore rid f - f.pred_mean|),
        (l.filter (fun f => (findActual cstore rid f.date).isSome)).filterMap
          (fun f => safe_mape (specActual cstore rid f) f.pred_mean),
        (l.filter (fun f => (findActual cstore rid f.date).isSome)).map
          (fun f => f.date)) := by
  induction l with
  | nil => rfl
  | cons f t ih =>
    simp only [evalLoop, ih]
    rcases h : findActual cstore rid f.date with _ | c
    · simp [List.filter_cons, h]
    · rcases hm : safe_mape ((c.confirmed : ℤ) : ℚ) f.pred_mean with _ | v <;>
        simp [List.filter_cons, h, specActual, hm]

/-- Defined-MAPE terms over a list equal the percentage errors over the
sublist of non-(approximately-)zero actuals. -/
theorem filterMap_safe_mape (cstore : List CaseDoc) (rid : String)
    (l : List ForecastDoc) :
    l.filterMap (fun f => safe_mape (specActual cstore rid f) f.pred_mean) =
      (l.filter (fun f => !decide (specActual cstore rid f = 0 ∨
          |specActual cstore rid f| < tinyGuard))).map
        (fun f => |specActual cstore rid f - f.pred_mean| /
          |specActual cstore rid f| * 100) := by
  induction l with
  | nil => rfl
  | cons f t ih =>
    by_cases hg : specActual cstore rid f = 0 ∨ |specActual cstore rid f| < tinyGuard
    · rw [List.filterMap_cons, List.filter_cons,
        show safe_mape (specActual cstore rid f) f.pred_mean = none from by
          simp [safe_mape, hg],
        show (!decide (specActual cstore rid f = 0 ∨
            |specActual cstore rid f| < tinyGuard)) = false from by simp [hg]]
      simpa using ih
    · rw [List.filterMap_cons, List.filter_cons,
        show safe_mape (specActual cstore rid f) f.pred_mean =
            some (|specActual cstore rid f - f.pred_mean| /
              |specActual cstore rid f| * 100) from by
          simp [safe_mape, hg, abs_div],
        show (!decide (specActual cstore rid f = 0 ∨
            |specActual cstore rid f| < tinyGuard)) = true from by simp [hg]]
      simpa using ih

/-- C8 (amended). `evaluate_forecast` compares the first `horizon` stored
forecast records for the region with date ≥ the given date (ascending),
whatever their dates; it looks up the actual observation on each forecast's
exact date; a day with no observation is excluded from both MAE and MAPE;
and a day whose actual is (approximately) zero is excluded from the MAPE
average while still contributing to MAE. -/
theorem c8_eval_exclusion_semantics (fstore : List ForecastDoc)
    (cstore : List CaseDoc) (rid : String) (date : Option ℕ) (horizon : ℕ) :
    (evaluate_forecast fstore cstore rid date horizon).dates_evaluated =
        (specCompared fstore cstore rid date horizon).map (fun f => f.date) ∧
      (evaluate_forecast fstore cstore rid date horizon).points_compared =
        (specCompared fstore cstore rid date horizon).length ∧
      (evaluate_forecast fstore cstore rid date horizon).mae =
        (specMAE fstore cstore rid date horizon).map round2 ∧
      (evaluate_forecast fstore cstore rid date horizon).mape =
        (specMAPE fstore cstore rid date horizon).map round2 := by
  rcases hsel : evalSelection fstore rid date horizon with _ | ⟨f0, rest⟩
  · simp [evaluate_forecast, hsel, specCompared, specMAE, specMAPE]
  · have hloop := evalLoop_spec cstore rid (f0 :: rest)
    have hcomp : specCompared fstore cstore rid date horizon =
        (f0 :: rest).filter (fun f => (findActual cstore rid f.date).isSome) := by
      rw [specCompared, hsel]
    refine ⟨?_, ?_, ?_, ?_⟩
    · simp only [evaluate_forecast, hsel, hloop, hcomp]
    · simp only [evaluate_forecast, hsel, hloop, hcomp, List.length_map]
    · rcases hc : (f0 :: rest).filter
          (fun f => (findActual cstore rid f.date).isSome) with _ | ⟨c0, crest⟩
      · simp only [evaluate_forecast, hsel, hloop, hc, specMAE, hcomp]
        simp
      · simp only [evaluate_forecast, hsel, hloop, hc, specMAE, hcomp]
        simp [listMean]
    · rcases hc : ((f0 :: rest).filter
            (fun f => (findActual cstore rid f.date).isSome)).filter
          (fun f => !decide (specActual cstore rid f = 0 ∨
            |specActual cstore rid f| < tinyGuard)) with _ | ⟨c0, crest⟩
      · simp only [evaluate_forecast, hsel, hloop, filterMap_safe_mape,
          specMAPE, hcomp, hc]
        simp
      · simp only [evaluate_forecast, hsel, hloop, filterMap_safe_mape,
          specMAPE, hcomp, hc]
        simp [listMean]

/-- Counterexample to C8 as stated: with a single stored forecast dated day
50, an evaluation at `date = 0`, `horizon = 1` compares day 50 — outside
`[date, date + horizon) = [0, 1)`. -/
theorem c8_window_counterexample :
    (evaluate_forecast c8ForecastStore c8CaseStore "R1" (some 0) 1).dates_evaluated
        = [50] ∧ ¬(50 < 0 + 1) := by
  constructor
  · norm_num [evaluate_forecast, evalSelection, evalForecastMatch, sortB,
      insertB, c8ForecastStore, c8CaseStore, evalLoop, findActual, List.find?,
      safe_mape, tinyGuard]
  · norm_num

/-- `insertB` commutes with mapping a comparison-invariant function. -/
theorem insertB_map {α β : Type} (g : α → β) (le : β → β → Bool)
    (le' : α → α → Bool) (hle : ∀ a b, le (g a) (g b) = le' a b) (x : α)
    (l : List α) :
    insertB le (g x) (l.map g) = (insertB le' x l).map g := by
  induction l with
  | nil => rfl
  | cons y t ih =>
    simp only [List.map_cons, insertB, hle]
    by_cases h : le' x y = true
    · simp [h]
    · simp [h, ih]

/-- `sortB` commutes with mapping a comparison-invariant function. -/
theorem sortB_map {α β : Type} (g : α → β) (le : β → β → Bool)
    (le' : α → α → Bool) (hle : ∀ a b, le (g a) (g b) = le' a b) (l : List α) :
    sortB le (l.map g) = (sortB le' l).map g := by
  induction l with
  | nil => rfl
  | cons y t ih => simp only [List.map_cons, sortB, ih, insertB_map g le le' hle]

/-- The evaluation selection commutes with any per-record rewrite that
preserves `region_id` and `date`. -/
theorem evalSelection_map (fstore : List ForecastDoc) (rid : String)
    (date : Option ℕ) (horizon : ℕ) (g : ForecastDoc → ForecastDoc)
    (hg : ∀ f, (g f).region_id = f.region_id ∧ (g f).date = f.date ∧
      (g f).pred_mean = f.pred_mean) :
    evalSelection (fstore.map g) rid date horizon =
      (evalSelection fstore rid date horizon).map g := by
  unfold evalSelection
  rw [List.filter_map,
    show (fun f => evalForecastMatch rid date f) ∘ g = evalForecastMatch rid date from
      funext fun f => by
        simp only [Function.comp, evalForecastMatch, (hg f).1, (hg f).2.1],
    sortB_map g forecastDateAsc forecastDateAsc
      (fun a b => by simp only [forecastDateAsc, (hg a).2.1, (hg b).2.1]),
    ← List.map_take]

/-- The evaluation loop is invariant under any per-record rewrite that
preserves `region_id`, `date` and `pred_mean`. -/
theorem evalLoop_map (cstore : List CaseDoc) (rid : String)
    (g : ForecastDoc → ForecastDoc)
    (hg : ∀ f, (g f).region_id = f.region_id ∧ (g f).date = f.date ∧
      (g f).pred_mean = f.pred_mean) (l : List ForecastDoc) :
    evalLoop cstore rid (l.map g) = evalLoop cstore rid l := by
  induction l with
  | nil => rfl
  | cons f t ih =>
    simp only [List.map_cons, evalLoop, ih, (hg f).2.1, (hg f).2.2]

/-- C10. `evaluate_forecast` selects the first `horizon` stored forecasts for
the region ascending by date with no `model_version` (or disease) filter:
all metrics are invariant under arbitrarily rewriting `model_version` and
`disease` on every stored record (any `g` preserving region, date and
`pred_mean`); the reported `model_version` is read off the earliest selected
record; and on a concrete store holding a naive and a SARIMA record, the
MAE mixes predictions of both families (`(|110−100| + |180−200|)/2 = 15`)
while `model_version` reports `"naive_v2"` from the earliest record. -/
theorem c10_eval_no_model_version_filter (fstore : List ForecastDoc)
    (cstore : List CaseDoc) (rid : String) (date : Option ℕ) (horizon : ℕ)
    (g : ForecastDoc → ForecastDoc)
    (hg : ∀ f, (g f).region_id = f.region_id ∧ (g f).date = f.date ∧
      (g f).pred_mean = f.pred_mean) :
    ((evaluate_forecast (fstore.map g) cstore rid date horizon).mae =
        (evaluate_forecast fstore cstore rid date horizon).mae ∧
      (evaluate_forecast (fstore.map g) cstore rid date horizon).mape =
        (evaluate_forecast fstore cstore rid date horizon).mape ∧
      (evaluate_forecast (fstore.map g) cstore rid date horizon).points_compared =
        (evaluate_forecast fstore cstore rid date horizon).points_compared ∧
      (evaluate_forecast (fstore.map g) cstore rid date horizon).dates_evaluated =
        (evaluate_forecast fstore cstore rid date horizon).dates_evaluated) ∧
    (∀ f0 rest, evalSelection fstore rid date horizon = f0 :: rest →
      (evaluate_forecast fstore cstore rid date horizon).model_version =
        f0.model_version) ∧
    ((evaluate_forecast mixedForecastStore mixedCaseStore "R1" (some 0) 7).mae =
        some 15 ∧
      (evaluate_forecast mixedForecastStore mixedCaseStore "R1" (some 0)
          7).points_compared = 2 ∧
      (evaluate_forecast mixedForecastStore mixedCaseStore "R1" (some 0)
          7).model_version = "naive_v2") := by
  refine ⟨?_, ?_, ?_⟩
  · have hsel := evalSelection_map fstore rid date horizon g hg
    rcases h : evalSelection fstore rid date horizon with _ | ⟨f0, rest⟩
    · rw [h] at hsel
      simp only [List.map_nil] at hsel
      simp [evaluate_forecast, hsel, h]
    · rw [h] at hsel
      simp only [List.map_cons] at hsel
      have hloop : evalLoop cstore rid (g f0 :: rest.map g) =
          evalLoop cstore rid (f0 :: rest) := by
        rw [← List.map_cons]
        exact evalLoop_map cstore rid g hg (f0 :: rest)
      simp [evaluate_forecast, hsel, h, hloop]
  · intro f0 rest h
    simp only [evaluate_forecast, h]
  · refine ⟨?_, ?_, ?_⟩ <;>
      norm_num [evaluate_forecast, evalSelection, evalForecastMatch, sortB,
        insertB, forecastDateAsc, mixedForecastStore, mixedCaseStore, evalLoop,
        findActual, List.find?_cons, List.filter, safe_mape, tinyGuard, round2,
        listMean]

/-- Witness for C10: retagging every record's `model_version` to `"X"` leaves
the computed MAE unchanged. -/
theorem c10_eval_no_model_version_filter_witness :
    (∀ f : ForecastDoc, (retagX f).region_id = f.region_id ∧
        (retagX f).date = f.date ∧ (retagX f).pred_mean = f.pred_mean) ∧
      (evaluate_forecast (mixedForecastStore.map retagX) mixedCaseStore "R1"
          (some 0) 7).mae =
        (evaluate_forecast mixedForecastStore mixedCaseStore "R1" (some 0)
          7).mae :=
  ⟨fun _ => ⟨rfl, rfl, rfl⟩,
    (c10_eval_no_model_version_filter mixedForecastStore mixedCaseStore "R1"
      (some 0) 7 retagX (fun _ => ⟨rfl, rfl, rfl⟩)).1.1⟩

/-- `alertSet` keeps the upsert key of the new alert. -/
theorem alertKey_alertSet (old new : AlertDoc) :
    alertKey (alertSet old new) = alertKey new := rfl

/-- The upsert filter decides exactly key equality. -/
theorem alertKeyMatch_iff (a d : AlertDoc) :
    alertKeyMatch a d ↔ alertKey d = alertKey a := by
  simp [alertKeyMatch, alertKey, Prod.ext_iff]

/-- Re-writing an alert over itself changes nothing. -/
theorem alertSet_self (a : AlertDoc) : alertSet a a = a := by
  cases a with
  | mk r d s lv re di => cases di <;> rfl

/-- `$set` with the same alert twice equals `$set` once. -/
theorem alertSet_idem (c a : AlertDoc) : alertSet (alertSet c a) a = alertSet c a := by
  cases a with
  | mk r d s lv re di => cases di <;> rfl

/-- An upsert with a different key does not change what is found under `k`. -/
theorem findByKey_upsert_other (s : List AlertDoc) (a : AlertDoc)
    (k : String × ℕ × (ℚ × ℚ)) (hk : alertKey a ≠ k) :
    findByKey (upsertAlert s a) k = findByKey s k := by
  induction s with
  | nil => simp [upsertAlert, findByKey, List.find?, hk]
  | cons d t ih =>
    by_cases hm : alertKeyMatch a d
    · have hd : alertKey d = alertKey a := (alertKeyMatch_iff a d).mp hm
      simp only [upsertAlert, if_pos hm, findByKey, List.find?_cons]
      rw [show (decide (alertKey (alertSet d a) = k)) = false from by
          simp [alertKey_alertSet, hk],
        show (decide (alertKey d = k)) = false from by simp [hd, hk]]
    · have hd : ¬alertKey d = alertKey a := fun h => hm ((alertKeyMatch_iff a d).mpr h)
      simp only [upsertAlert, if_neg hm, findByKey, List.find?_cons] at ih ⊢
      rcases hdk : (decide (alertKey d = k)) with _ | _ <;> simp [hdk, ih]

/-- After an upsert of `a`, the document found under `a`'s key is `a`
(or the `$set`-merge of `a` over the previously stored document). -/
theorem findByKey_upsert_self (s : List AlertDoc) (a : AlertDoc) :
    findByKey (upsertAlert s a) (alertKey a) =
      some ((findByKey s (alertKey a)).elim a (fun c => alertSet c a)) := by
  induction s with
  | nil => simp [upsertAlert, findByKey, List.find?]
  | cons d t ih =>
    by_cases hm : alertKeyMatch a d
    · have hd : alertKey d = alertKey a := (alertKeyMatch_iff a d).mp hm
      simp [upsertAlert, if_pos hm, findByKey, List.find?_cons, alertKey_alertSet, hd]
    · have hd : ¬alertKey d = alertKey a := fun h => hm ((alertKeyMatch_iff a d).mpr h)
      simp only [upsertAlert, if_neg hm, findByKey, List.find?_cons] at ih ⊢
      simp [hd, ih]

/-- An upsert whose key already holds a fixed point of its `$set` is a
no-op on the store. -/
theorem upsertAlert_eq_self (s : List AlertDoc) (a : AlertDoc)
    (h : ∃ c, findByKey s (alertKey a) = some c ∧ alertSet c a = c) :
    upsertAlert s a = s := by
  induction s with
  | nil =>
    obtain ⟨c, hc, _⟩ := h
    simp [findByKey, List.find?] at hc
  | cons d t ih =>
    obtain ⟨c, hc, hset⟩ := h
    by_cases hm : alertKeyMatch a d
    · have hd : alertKey d = alertKey a := (alertKeyMatch_iff a d).mp hm
      have hcd : c = d := by
        simp [findByKey, List.find?_cons, hd] at hc
        exact hc.symm
      subst hcd
      simp [upsertAlert, if_pos hm, hset]
    · have hd : ¬alertKey d = alertKey a := fun hh => hm ((alertKeyMatch_iff a d).mpr hh)
      have hc' : findByKey t (alertKey a) = some c := by
        simpa [findByKey, List.find?_cons, hd] using hc
      simp [upsertAlert, if_neg hm, ih ⟨c, hc', hset⟩]

/-- A batch of upserts with keys all different from `k` does not change what
is found under `k`. -/
theorem findByKey_foldl_other (L : List AlertDoc) (s : List AlertDoc)
    (k : String × ℕ × (ℚ × ℚ)) (hall : ∀ b ∈ L, alertKey b ≠ k) :
    findByKey (L.foldl upsertAlert s) k = findByKey s k := by
  induction L generalizing s with
  | nil => rfl
  | cons b t ih =>
    simp only [List.foldl_cons]
    rw [ih (upsertAlert s b) (fun x hx => hall x (List.mem_cons_of_mem b hx)),
      findByKey_upsert_other s b k (hall b (List.mem_cons_self b t))]

/-- After a batch of upserts with pairwise-distinct keys, every batch
member's key holds a `$set` fixed point of that member. -/
theorem foldl_upsert_good (L : List AlertDoc)
    (hL : L.Pairwise (fun x y => alertKey x ≠ alertKey y)) (s : List AlertDoc) :
    ∀ a ∈ L, ∃ c, findByKey (L.foldl upsertAlert s) (alertKey a) = some c ∧
      alertSet c a = c := by
  induction L generalizing s with
  | nil =>
    intro a ha
    simp at ha
  | cons b t ih =>
    intro a ha
    simp only [List.foldl_cons]
    rcases List.mem_cons.mp ha with rfl | hat
    · have hne : ∀ y ∈ t, alertKey y ≠ alertKey a := by
        intro y hy h
        exact (List.pairwise_cons.mp hL).1 y hy h.symm
      rw [findByKey_foldl_other t (upsertAlert s a) _ hne,
        findByKey_upsert_self s a]
      rcases hf : findByKey s (alertKey a) with _ | c
      · exact ⟨a, by simp, alertSet_self a⟩
      · exact ⟨alertSet c a, by simp, alertSet_idem c a⟩
    · exact ih (List.pairwise_cons.mp hL).2 (upsertAlert s b) a hat

/-- A batch of upserts all of whose members already hold `$set` fixed points
is a no-op on the store. -/
theorem foldl_upsert_eq_self (L : List AlertDoc) (s : List AlertDoc)
    (hgood : ∀ a ∈ L, ∃ c, findByKey s (alertKey a) = some c ∧ alertSet c a = c) :
    L.foldl upsertAlert s = s := by
  induction L with
  | nil => rfl
  | cons b t ih =>
    have hs : upsertAlert s b = s :=
      upsertAlert_eq_self s b (hgood b (List.mem_cons_self b t))
    simp only [List.foldl_cons, hs]
    exact ih (fun a ha => hgood a (List.mem_cons_of_mem b ha))

/-- Replaying a batch of pairwise-distinct-key upserts is idempotent on the
alert store. -/
theorem foldl_upsert_idem (L : List AlertDoc) (s : List AlertDoc)
    (hL : L.Pairwise (fun x y => alertKey x ≠ alertKey y)) :
    L.foldl upsertAlert (L.foldl upsertAlert s) = L.foldl upsertAlert s :=
  foldl_upsert_eq_self L _ (foldl_upsert_good L hL s)

/-- `insertB` produces a permutation of consing. -/
theorem insertB_perm {α : Type} (le : α → α → Bool) (x : α) (l : List α) :
    List.Perm (insertB le x l) (x :: l) := by
  induction l with
  | nil => exact List.Perm.refl _
  | cons y t ih =>
    simp only [insertB]
    split
    · exact List.Perm.refl _
    · exact (ih.cons y).trans (List.Perm.swap x y t)

/-- `sortB` permutes its input. -/
theorem sortB_perm {α : Type} (le : α → α → Bool) (l : List α) :
    List.Perm (sortB le l) l := by
  induction l with
  | nil => exact List.Perm.refl _
  | cons x t ih => exact (insertB_perm le x (sortB le t)).trans (ih.cons x)

/-- Under the uniqueness of `(region_id, date, disease)` enforced by the
`risk_scores` unique index, the alerts emitted in one `generate_alerts` run
for a given disease carry pairwise-distinct upsert keys. -/
theorem alertCandidates_pairwise_keys (threshold : ℚ) (target : ℕ) (dz : String)
    (rs : List RiskDoc)
    (huniq : rs.Pairwise (fun a b =>
      ¬(a.region_id = b.region_id ∧ a.date = b.date ∧ a.disease = b.disease))) :
    (alertCandidates threshold target (some dz) rs).Pairwise
      (fun x y => alertKey x ≠ alertKey y) := by
  unfold alertCandidates alertRiskDocs
  rw [List.pairwise_map]
  have h0 : (rs.filter (fun rd =>
      riskDiseaseMatch (some dz) rd && rd.date == target)).Pairwise
      (fun a b => a.region_id ≠ b.region_id) := by
    refine (huniq.filter (fun rd =>
      riskDiseaseMatch (some dz) rd && rd.date == target)).imp_of_mem ?_
    intro a b ha hb hab hreg
    have ha' := List.of_mem_filter ha
    have hb' := List.of_mem_filter hb
    simp only [riskDiseaseMatch, Bool.and_eq_true, beq_iff_eq] at ha' hb'
    exact hab ⟨hreg, ha'.2.trans hb'.2.symm, ha'.1.trans hb'.1.symm⟩
  have h2 : (sortB riskScoreDesc (rs.filter (fun rd =>
      riskDiseaseMatch (some dz) rd && rd.date == target))).Pairwise
      (fun a b => a.region_id ≠ b.region_id) :=
    ((sortB_perm riskScoreDesc _).pairwise_iff
      (fun h => Ne.symm h)).mpr h0
  refine (h2.filter (fun rd => !decide (rd.risk_score < threshold))).imp ?_
  intro a b hab hk
  apply hab
  simpa [alertKey, mkAlert] using congrArg Prod.fst hk

/-- C9. `generate_alerts` is idempotent: running it twice for the same
`(date, disease)` over an unchanged risk-score store (whose documents are
unique on `(region_id, date, disease)`, the index the repository declares)
leaves the alert store exactly as after one run — the same trigger never
produces a duplicate, because alerts are upserted by natural key. -/
theorem c9_generate_alerts_idempotent (threshold : ℚ) (td : Option ℕ)
    (dz : String) (riskStore : List RiskDoc) (alertStore : List AlertDoc)
    (huniq : riskStore.Pairwise (fun a b =>
      ¬(a.region_id = b.region_id ∧ a.date = b.date ∧ a.disease = b.disease))) :
    (generate_alerts threshold td (some dz) riskStore
        (generate_alerts threshold td (some dz) riskStore alertStore).2.2).2.2 =
      (generate_alerts threshold td (some dz) riskStore alertStore).2.2 := by
  rcases hres : resolveAlertDate td (some dz) riskStore with _ | target
  · simp [generate_alerts, hres]
  · by_cases hrd : alertRiskDocs target (some dz) riskStore = []
    · simp [generate_alerts, hres, hrd]
    · simp only [generate_alerts, hres, if_neg hrd]
      exact foldl_upsert_idem (alertCandidates threshold target (some dz) riskStore)
        alertStore (alertCandidates_pairwise_keys threshold target dz riskStore huniq)

/-- Witness for C9 on the two-disease risk store. -/
theorem c9_generate_alerts_idempotent_witness :
    c4RiskStore.Pairwise (fun a b =>
      ¬(a.region_id = b.region_id ∧ a.date = b.date ∧ a.disease = b.disease)) ∧
    (generate_alerts (7/10) (some 15) (some "DENGUE") c4RiskStore
        (generate_alerts (7/10) (some 15) (some "DENGUE") c4RiskStore []).2.2).2.2 =
      (generate_alerts (7/10) (some 15) (some "DENGUE") c4RiskStore []).2.2 :=
  ⟨by decide,
    c9_generate_alerts_idempotent (7/10) (some 15) "DENGUE" c4RiskStore []
      (by decide)⟩

/-- C4 is violated by the code: the alert upsert filter omits the disease,
so with equal scores (hence equal reason strings) at the same region and
date, generating alerts for `DENGUE` and then for `COVID` leaves a single
alert record — the `COVID` run overwrote the `DENGUE` alert, which is no
longer visible to any read filtered by its disease. -/
theorem c4_alert_upsert_overwrites_other_disease :
    (∃ d ∈ (generate_alerts (7/10) (some 15) (some "DENGUE") c4RiskStore []).2.2,
        d.disease = some "DENGUE") ∧
      (generate_alerts (7/10) (some 15) (some "COVID") c4RiskStore
        (generate_alerts (7/10) (some 15) (some "DENGUE") c4RiskStore
          []).2.2).2.2.length = 1 ∧
      ∀ d ∈ (generate_alerts (7/10) (some 15) (some "COVID") c4RiskStore
          (generate_alerts (7/10) (some 15) (some "DENGUE") c4RiskStore []).2.2).2.2,
        d.disease ≠ some "DENGUE" := by
  refine ⟨?_, ?_, ?_⟩ <;>
    norm_num [generate_alerts, resolveAlertDate, alertRiskDocs, alertCandidates,
      riskDiseaseMatch, riskScoreDesc, alertScoreDesc, sortB, insertB,
      c4RiskStore, mkAlert, mkReason, upsertAlert, alertKeyMatch, alertSet,
      round2, List.filter] <;>
    decide
